import Mathlib

/-!
Verification development for the prompt-to-media pipeline documented in this
repository (blog posts `dall-e-murf.mdx` and `gpt-murf.mdx`).

Two programs are embedded:

* `AiVideoGenerator` — the Python/FastAPI video pipeline from `dall-e-murf.mdx`
  (`get_script`, `get_image`, `get_voiceover_url`, `download_file`,
  `get_final_video`, `get_ai_video`).  External services (OpenAI chat, DALL-E,
  Murf, HTTP downloads, `json.loads`, moviepy's audio probing) are modelled as
  an oracle record `World`; Python exceptions are modelled with `Except PyErr`,
  and every externally visible effect (API call, file download, video write,
  file deletion) is recorded in an event log so that frame/effect claims can be
  stated.  A computation is a pair: the `Except` result and the log of events
  emitted up to the point of return or of the raised exception.

* `ChatgptMurf` — the React/TypeScript chat form from `gpt-murf.mdx`
  (`handlePromptSubmit` and the disabled-while-loading form controls).
-/

namespace AiVideoGenerator

/-- JSON values, as produced by Python's `json.loads` and by `response.json()`. -/
inductive Json where
  | null : Json
  | bool (b : Bool) : Json
  | num (q : ℚ) : Json
  | str (s : String) : Json
  | arr (elems : List Json) : Json
  | obj (fields : List (String × Json)) : Json

/-- Python exceptions that the embedded code can raise. -/
inductive PyErr where
  | keyError (key : String)
  | typeError (msg : String)
  | jsonDecodeError (msg : String)
  | requestError (msg : String)
deriving DecidableEq, Repr

/-- Externally visible effects of the pipeline: API calls, file downloads,
the final video write, and file deletion (the effect vocabulary includes
deletion so that cleanup claims are expressible; the source code never
deletes a file, so no embedded function ever emits `deleteFile`). -/
inductive Event where
  | chatCall (messages : List (String × String)) : Event
  | imageCall (prompt : Json) : Event
  | voiceCall (text voiceId : Json) : Event
  | download (url : Json) (filename : String) : Event
  | writeVideo (filename : String) : Event
  | deleteFile (filename : String) : Event

/-- A Python computation: its result (normal return or raised exception)
together with the ordered log of external effects it performed. -/
abbrev PyM (α : Type) : Type := Except PyErr α × List Event

/-- Sequencing: effects of the first computation happen first; a raised
exception aborts the continuation but keeps the effects already performed. -/
def PyM.bind {α β : Type} (x : PyM α) (f : α → PyM β) : PyM β :=
  match x with
  | (.error e, log) => (.error e, log)
  | (.ok a, log) => ((f a).1, log ++ (f a).2)

/-- A pure value: no effects. -/
def PyM.pure {α : Type} (a : α) : PyM α := (.ok a, [])

/-- Lift an effect-free fallible step (e.g. a dictionary lookup). -/
def liftE {α : Type} (x : Except PyErr α) : PyM α := (x, [])

/-- Python subscription `j[key]` with a string key: returns the field of a
JSON object, raises `KeyError` when the key is absent, `TypeError` when the
value is not an object. -/
def Json.getItem : Json → String → Except PyErr Json
  | .obj fields, key =>
      match fields.find? (fun kv => kv.1 = key) with
      | some kv => .ok kv.2
      | none => .error (.keyError key)
  | _, key => .error (.typeError ("value is not subscriptable by key " ++ key))

/-- Iterating `for item in v`: modelled for JSON arrays; iterating any other
JSON value raises `TypeError` (no claim exercises Python's iteration over
dictionaries or strings). -/
def Json.asArr : Json → Except PyErr (List Json)
  | .arr elems => .ok elems
  | _ => .error (.typeError "value is not iterable")

/-- The external world: the hosted services and library primitives the
pipeline calls.  `chatReply` is the OpenAI chat completion (returns
`res.choices[0].message.content`), `loads` is Python's `json.loads`,
`imageUrl` is DALL-E (`response.data[0].url`), `voiceResponse` is the parsed
body of the Murf `POST /speech/generate-with-key` call (`response.json()`),
`fetch` is `requests.get(url)` + `raise_for_status()`, and `audioDuration`
is moviepy's `AudioFileClip(path).duration`. -/
structure World where
  chatReply : List (String × String) → Except PyErr String
  loads : String → Except PyErr Json
  imageUrl : Json → Except PyErr String
  voiceResponse : Json → Json → Except PyErr Json
  fetch : Json → Except PyErr Unit
  audioDuration : String → ℚ

/-- The system prompt sent by `get_script` (the final version of the blog
post, which includes the voice-selection policy). -/
def systemPrompt : String :=
  "You are an automated system that helps generate 8-second videos. The user will provide a prompt, based on which, you will return a JSON array of objects named script. Each sentence of the script will be an object in the array. The object will have the following attributes. text - the sentence of the script. imagePrompt - a prompt that can be sent to DALL-E to generate the perfect, photorealistic image for the given sentence that also aligns with the overall context of the video; the image should have little or no text in it. voiceId - a voice id that will be used by a TTS service; Only one voice should be used per video; For documentary videos, use en-UK-gabriel; for promo, ad-like videos, or any video with happy vibes, use en-UK-reggie for British accent or en-US-caleb for American accent; for informational videos like tutorials or lessons, use en-UK-hazel or en-US-miles; for other generic or general videos, use en-US-miles."

/-- The `(role, content)` message list `get_script` sends to the chat model. -/
def scriptMessages (prompt : String) : List (String × String) :=
  [("system", systemPrompt), ("user", prompt)]

/-- `get_script` from `app/openai.py`: one chat-completion call, then
`json.loads` on the reply content.  The parsed value (whatever it is) is
returned; a parse failure propagates as the raised exception. -/
def get_script (w : World) (prompt : String) : PyM Json :=
  PyM.bind (w.chatReply (scriptMessages prompt), [.chatCall (scriptMessages prompt)])
    (fun content => liftE (w.loads content))

/-- `get_image` from `app/openai.py`: one DALL-E call, returns
`response.data[0].url`. -/
def get_image (w : World) (prompt : Json) : PyM String :=
  (w.imageUrl prompt, [.imageCall prompt])

/-- `get_voiceover_url` from `app/murf.py`: one Murf call, then
`response.json()["audioFile"]`. -/
def get_voiceover_url (w : World) (text voice_id : Json) : PyM Json :=
  PyM.bind (w.voiceResponse text voice_id, [.voiceCall text voice_id])
    (fun body => liftE (body.getItem "audioFile"))

/-- One element of `data_list` in `get_ai_video`:
`{"imageUrl": image_url, "audioUrl": audio_url}`. -/
structure Media where
  imageUrl : String
  audioUrl : Json

/-- The `for item in script_arr` loop body of `get_ai_video`: per item, look
up `imagePrompt`, call DALL-E, look up `text` and `voiceId`, call Murf, and
append the media dictionary, preserving script order. -/
def build_data_list (w : World) : List Json → PyM (List Media)
  | [] => PyM.pure []
  | item :: rest =>
    PyM.bind (liftE (item.getItem "imagePrompt")) fun ip =>
    PyM.bind (get_image w ip) fun image_url =>
    PyM.bind (liftE (item.getItem "text")) fun t =>
    PyM.bind (liftE (item.getItem "voiceId")) fun v =>
    PyM.bind (get_voiceover_url w t v) fun audio_url =>
    PyM.bind (build_data_list w rest) fun tail =>
    PyM.pure (Media.mk image_url audio_url :: tail)

/-- Effect-free per-item specification of the loop body above: the media
pair item `i` produces, when every sub-step succeeds, and the first raised
exception otherwise.  Used to state order-preservation theorems. -/
def mediaOf (w : World) (item : Json) : Except PyErr Media :=
  (item.getItem "imagePrompt").bind fun ip =>
  (w.imageUrl ip).bind fun image_url =>
  (item.getItem "text").bind fun t =>
  (item.getItem "voiceId").bind fun v =>
  (w.voiceResponse t v).bind fun body =>
  (body.getItem "audioFile").bind fun audio_url =>
  .ok (Media.mk image_url audio_url)

/-- Decimal rendering of a nonnegative integer, modelling Python's
`f"{counter}"` string interpolation. -/
def pyStr (n : ℕ) : String :=
  if n = 0 then "0" else String.mk (((Nat.digits 10 n).map Nat.digitChar).reverse)

/-- The scratch filename `f"image_{counter}.png"`. -/
def imageName (counter : ℕ) : String := "image_" ++ pyStr counter ++ ".png"

/-- The scratch filename `f"audio_{counter}.wav"`. -/
def audioName (counter : ℕ) : String := "audio_" ++ pyStr counter ++ ".wav"

/-- `download_file` from `app/moviepy.py`: `requests.get` +
`raise_for_status()`, then the body is streamed into `local_filename`; the
local file is recorded (as a `download` event) only when the fetch
succeeded, and the local filename is returned. -/
def download_file (w : World) (url : Json) (local_filename : String) : PyM String :=
  PyM.bind (liftE (w.fetch url)) fun _ =>
    (.ok local_filename, [.download url local_filename])

/-- Python's `int()` applied to a rational: truncation toward zero
(`Int.tdiv` truncates toward zero, matching CPython's `int(float)`). -/
def pyInt (q : ℚ) : ℤ := q.num.tdiv q.den

/-- One concatenated segment of the final video: the `ImageClip` built from
`image_path` with `duration=(int(audio_clip.duration) + 1)` and, via
`set_audio` (which leaves the displayed duration unchanged), the audio track
read from `audio_path`. -/
structure Segment where
  imagePath : String
  audioPath : String
  duration : ℤ
deriving DecidableEq, Repr

/-- The `for data in data_list` loop of `get_final_video`: per media pair,
download the image to `image_{counter}.png` and the audio to
`audio_{counter}.wav`, build the segment, and increment the counter. -/
def build_clips (w : World) : List Media → ℕ → PyM (List Segment)
  | [], _ => PyM.pure []
  | data :: rest, counter =>
    PyM.bind (download_file w (.str data.imageUrl) (imageName counter)) fun image_path =>
    PyM.bind (download_file w data.audioUrl (audioName counter)) fun audio_path =>
    PyM.bind (build_clips w rest (counter + 1)) fun tail =>
    PyM.pure (Segment.mk image_path audio_path (pyInt (w.audioDuration audio_path) + 1) :: tail)

/-- The value returned by `get_final_video`: the `FileResponse` for the
written output file, together with the composed video content
(`concatenate_videoclips(video_clips)`) that was encoded into that file. -/
structure Artifact where
  path : String
  mediaType : String
  video : List Segment

/-- `get_final_video` from `app/moviepy.py`: build all clips (counter
starting at 0), concatenate them, write `output_video.mp4`, and return the
`FileResponse` with media type `video/mp4`. -/
def get_final_video (w : World) (data_list : List Media) : PyM Artifact :=
  PyM.bind (build_clips w data_list 0) fun clips =>
  PyM.bind ((.ok (), [.writeVideo "output_video.mp4"]) : PyM Unit) fun _ =>
  PyM.pure (Artifact.mk "output_video.mp4" "video/mp4" clips)

/-- `get_ai_video` from `app/main.py`: generate the script, take
`script["script"]`, iterate it building `data_list`, and compose the final
video. -/
def get_ai_video (w : World) (prompt : String) : PyM Artifact :=
  PyM.bind (get_script w prompt) fun script =>
  PyM.bind (liftE (script.getItem "script")) fun script_arr =>
  PyM.bind (liftE script_arr.asArr) fun items =>
  PyM.bind (build_data_list w items) fun data_list =>
  get_final_video w data_list

/-- Total displayed duration of a concatenated clip list (moviepy:
the duration of `concatenate_videoclips` is the sum of the segment
durations). -/
def videoDuration (clips : List Segment) : ℤ := (clips.map Segment.duration).sum

/-- Effect of one event on the set of local files: downloads and the video
write create a file, `deleteFile` removes one; other events do not touch the
filesystem. -/
def fsStep (fs : List String) : Event → List String
  | .download _ f => fs ++ [f]
  | .writeVideo f => fs ++ [f]
  | .deleteFile f => fs.filter (fun g => g ≠ f)
  | _ => fs

/-- The local files present after replaying an event log. -/
def filesAfter (log : List Event) : List String :=
  log.foldl fsStep []

/-- The `(text, voiceId)` arguments of the Murf calls recorded in a log, in
call order. -/
def voiceCallsOf (log : List Event) : List (Json × Json) :=
  log.filterMap fun e =>
    match e with
    | .voiceCall t v => some (t, v)
    | _ => none

/-- Effect-free list version of `mediaOf`: the value of the whole assembly
loop, item by item in script order.  Proved below to be the result component
of `build_data_list`. -/
def listMediaOf (w : World) : List Json → Except PyErr (List Media)
  | [] => .ok []
  | item :: rest =>
    (mediaOf w item).bind fun m =>
    (listMediaOf w rest).bind fun tail =>
    .ok (m :: tail)

/-- Per-item dictionary lookups of one key over a script, failing at the
first item that lacks the key.  Used to state which `text`/`voiceId` values
the assembler forwards. -/
def lookups (key : String) : List Json → Except PyErr (List Json)
  | [] => .ok []
  | item :: rest =>
    (item.getItem key).bind fun v =>
    (lookups key rest).bind fun vs =>
    .ok (v :: vs)

/-- The segment produced for counter value `j`: image `image_j.png`, audio
`audio_j.wav`, displayed duration `int(duration) + 1`. -/
def clipAt (w : World) (j : ℕ) : Segment :=
  Segment.mk (imageName j) (audioName j) (pyInt (w.audioDuration (audioName j)) + 1)

/-- The event log of a fully successful `build_clips` run: per item, the
image download then the audio download, counter increasing. -/
def clipsLog : List Media → ℕ → List Event
  | [], _ => []
  | data :: rest, counter =>
    .download (.str data.imageUrl) (imageName counter)
      :: .download data.audioUrl (audioName counter)
      :: clipsLog rest (counter + 1)

/-- The scratch filenames written by `k` loop iterations starting at counter
`c`. -/
def scratchNames : ℕ → ℕ → List String
  | _, 0 => []
  | c, k + 1 => imageName c :: audioName c :: scratchNames (c + 1) k

/-- The file an event creates, if any. -/
def writtenName : Event → Option String
  | .download _ f => some f
  | .writeVideo f => some f
  | _ => none

/-- A two-sentence script whose items all carry the same voice, used as
concrete witness data. -/
def sampleItem0 : Json :=
  .obj [("text", .str "The Sahara Desert, a vast sea of sand."),
        ("imagePrompt", .str "Endless golden sands of the Sahara"),
        ("voiceId", .str "en-UK-gabriel")]

/-- Second sample script item. -/
def sampleItem1 : Json :=
  .obj [("text", .str "Its dunes tell tales of ancient caravans."),
        ("imagePrompt", .str "Wind-sculpted sand dunes with caravan trails"),
        ("voiceId", .str "en-UK-gabriel")]

/-- The sample script array. -/
def sampleItems : List Json := [sampleItem0, sampleItem1]

/-- The sample parsed chat reply: `{"script": [...]}`. -/
def sampleScriptJson : Json := .obj [("script", .arr sampleItems)]

/-- The narration duration used by the successful witness world:
3.5 seconds. -/
def durOk : ℚ := Rat.mk' 7 2 (by decide) (by decide)

/-- A fully successful world: every service call succeeds, every audio clip
lasts 3.5 seconds. -/
def wOk : World where
  chatReply := fun _ => .ok "raw json reply"
  loads := fun _ => .ok sampleScriptJson
  imageUrl := fun _ => .ok "https://images.example/img.png"
  voiceResponse := fun _ _ => .ok (.obj [("audioFile", .str "https://audio.example/a.wav")])
  fetch := fun _ => .ok ()
  audioDuration := fun _ => durOk

/-- Script item whose voice differs from `sampleItem0`: the language model
violating the single-voice instruction. -/
def mixedVoiceItem : Json :=
  .obj [("text", .str "A promo sentence with happy vibes."),
        ("imagePrompt", .str "A bright sunny beach"),
        ("voiceId", .str "en-US-caleb")]

/-- A script in which the model emitted two different voiceIds. -/
def mixedVoiceItems : List Json := [sampleItem0, mixedVoiceItem]

/-- Failure-counterexample script, item 0 (image prompt `p0`). -/
def item5a : Json :=
  .obj [("text", .str "s0"), ("imagePrompt", .str "p0"), ("voiceId", .str "en-US-miles")]

/-- Failure-counterexample script, item 1 (image prompt `p1`). -/
def item5b : Json :=
  .obj [("text", .str "s1"), ("imagePrompt", .str "p1"), ("voiceId", .str "en-US-miles")]

/-- Failure-counterexample script, item 2 (image prompt `p2`). -/
def item5c : Json :=
  .obj [("text", .str "s2"), ("imagePrompt", .str "p2"), ("voiceId", .str "en-US-miles")]

/-- Three-sentence script used for the failure-propagation counterexample. -/
def threeItems : List Json := [item5a, item5b, item5c]

/-- World whose DALL-E call fails (with a fixed error) exactly on the image
prompt `"p1"` — index 1 of `threeItems`. -/
def wFailAt1 : World where
  chatReply := fun _ => .ok "raw json reply"
  loads := fun _ => .ok (.obj [("script", .arr threeItems)])
  imageUrl := fun p =>
    match p with
    | .str "p1" => .error (.requestError "dalle failure")
    | _ => .ok "https://images.example/img.png"
  voiceResponse := fun _ _ => .ok (.obj [("audioFile", .str "https://audio.example/a.wav")])
  fetch := fun _ => .ok ()
  audioDuration := fun _ => Rat.mk' 2 1 (by decide) (by decide)

/-- Same as `wFailAt1` but the DALL-E call fails, with the same error, on
`"p2"` — index 2 of `threeItems`. -/
def wFailAt2 : World where
  chatReply := fun _ => .ok "raw json reply"
  loads := fun _ => .ok (.obj [("script", .arr threeItems)])
  imageUrl := fun p =>
    match p with
    | .str "p2" => .error (.requestError "dalle failure")
    | _ => .ok "https://images.example/img.png"
  voiceResponse := fun _ _ => .ok (.obj [("audioFile", .str "https://audio.example/a.wav")])
  fetch := fun _ => .ok ()
  audioDuration := fun _ => Rat.mk' 2 1 (by decide) (by decide)

/-- World whose language model returns valid JSON that lacks the `script`
key. -/
def wNoScriptKey : World where
  chatReply := fun _ => .ok "raw json reply"
  loads := fun _ => .ok (.obj [("foo", .num 1)])
  imageUrl := fun _ => .ok "https://images.example/img.png"
  voiceResponse := fun _ _ => .ok (.obj [("audioFile", .str "https://audio.example/a.wav")])
  fetch := fun _ => .ok ()
  audioDuration := fun _ => Rat.mk' 2 1 (by decide) (by decide)

/-- World whose language model returns a reply that is not well-formed JSON,
so `json.loads` raises. -/
def wMalformed : World where
  chatReply := fun _ => .ok "not json at all"
  loads := fun _ => .error (.jsonDecodeError "Expecting value: line 1 column 1")
  imageUrl := fun _ => .ok "https://images.example/img.png"
  voiceResponse := fun _ _ => .ok (.obj [("audioFile", .str "https://audio.example/a.wav")])
  fetch := fun _ => .ok ()
  audioDuration := fun _ => Rat.mk' 2 1 (by decide) (by decide)

/-- A concrete one-pair media list (first pipeline invocation). -/
def mediaListA : List Media := [Media.mk "https://a.example/img0.png" (.str "https://a.example/aud0.wav")]

/-- A different concrete one-pair media list (second pipeline invocation,
different remote assets). -/
def mediaListB : List Media := [Media.mk "https://b.example/img0.png" (.str "https://b.example/aud0.wav")]

/-- The media pairs `build_data_list wOk sampleItems` produces. -/
def samplePairs : List Media :=
  [Media.mk "https://images.example/img.png" (.str "https://audio.example/a.wav"),
   Media.mk "https://images.example/img.png" (.str "https://audio.example/a.wav")]

/-- The call log of `build_data_list wOk sampleItems`. -/
def sampleAssemblyLog : List Event :=
  [.imageCall (.str "Endless golden sands of the Sahara"),
   .voiceCall (.str "The Sahara Desert, a vast sea of sand.") (.str "en-UK-gabriel"),
   .imageCall (.str "Wind-sculpted sand dunes with caravan trails"),
   .voiceCall (.str "Its dunes tell tales of ancient caravans.") (.str "en-UK-gabriel")]

/-- The call log of `build_data_list wOk mixedVoiceItems`. -/
def mixedLog : List Event :=
  [.imageCall (.str "Endless golden sands of the Sahara"),
   .voiceCall (.str "The Sahara Desert, a vast sea of sand.") (.str "en-UK-gabriel"),
   .imageCall (.str "A bright sunny beach"),
   .voiceCall (.str "A promo sentence with happy vibes.") (.str "en-US-caleb")]

/-- The artifact `get_final_video wOk mediaListA` returns: one segment whose
displayed duration is `int(3.5) + 1 = 4`. -/
def artA : Artifact :=
  Artifact.mk "output_video.mp4" "video/mp4" [Segment.mk "image_0.png" "audio_0.wav" 4]

/-- The event log of `get_final_video wOk mediaListA`. -/
def finalLogA : List Event :=
  [.download (.str "https://a.example/img0.png") "image_0.png",
   .download (.str "https://a.example/aud0.wav") "audio_0.wav",
   .writeVideo "output_video.mp4"]

end AiVideoGenerator

namespace ChatgptMurf

/-- Chat message roles (`"system" | "user" | "assistant"`). -/
inductive Role where
  | system : Role
  | user : Role
  | assistant : Role
deriving DecidableEq, Repr

/-- The `ChatGPTMessage` type from `OpenAiAPI.ts`. -/
structure ChatGPTMessage where
  role : Role
  content : String
deriving DecidableEq, Repr

/-- The `GPTQuery` type: one user question, ChatGPT's response, and the URL
of the Murf narration of that response. -/
structure GPTQuery where
  question : String
  gptResponse : String
  gptResponseAudioUrl : String
deriving DecidableEq, Repr

/-- The `STATUS_TYPES` enum. -/
inductive Status where
  | IDLE : Status
  | LOADING : Status
deriving DecidableEq, Repr

/-- The `GenerateSpeechInput` type from `MurfAPI.ts`. -/
structure GenerateSpeechInput where
  voiceId : String
  text : String
  format : String
deriving DecidableEq, Repr

/-- A JavaScript runtime error (a rejected promise from an API call). -/
inductive JsErr where
  | apiError (msg : String)
deriving DecidableEq, Repr

/-- The `GPTForm` component state: the `prompt`, `status`, `gptQueries` and
`currentAudioId` `useState` hooks. -/
structure FormState where
  prompt : String
  status : Status
  gptQueries : List GPTQuery
  currentAudioId : Option ℕ
deriving DecidableEq, Repr

/-- The external services `handlePromptSubmit` awaits: `chat` is
`generateChatGPTResponse` (returning `choices[0].message.content`) and
`tts` is `generateSpeechWithKey` (returning `data.audioFile`). -/
structure ChatWorld where
  chat : List ChatGPTMessage → Except JsErr String
  tts : GenerateSpeechInput → Except JsErr String

/-- External calls issued by one run of `handlePromptSubmit`. -/
inductive ChatEvent where
  | lmCall (messages : List ChatGPTMessage) : ChatEvent
  | ttsCall (input : GenerateSpeechInput) : ChatEvent
deriving DecidableEq, Repr

/-- JavaScript's `String.prototype.trim` (also Python `str.strip`): drop
leading and trailing whitespace. -/
def jsTrim (s : String) : String :=
  String.mk (((s.data.dropWhile Char.isWhitespace).reverse.dropWhile Char.isWhitespace).reverse)

/-- The `messagesList` built in `handlePromptSubmit`: for each prior query a
user message and an assistant message, followed by the new user prompt. -/
def messagesList (queries : List GPTQuery) (prompt : String) : List ChatGPTMessage :=
  (queries.flatMap fun q =>
    [ChatGPTMessage.mk .user q.question, ChatGPTMessage.mk .assistant q.gptResponse])
    ++ [ChatGPTMessage.mk .user prompt]

/-- The result of one invocation of `handlePromptSubmit`: the component
state after the handler finished (or after its promise rejected), the API
calls it issued, and the rejection if one occurred. -/
structure SubmitOutcome where
  state : FormState
  events : List ChatEvent
  err : Option JsErr
deriving DecidableEq, Repr

/-- The fixed Murf voice used for every narration. -/
def defaultVoice : String := "en-US-marcus"

/-- `handlePromptSubmit` from `GPTForm`: return immediately on an empty or
whitespace-only prompt; otherwise set status to LOADING, build the message
list, await ChatGPT, await Murf (voice `en-US-marcus`, format `MP3`),
append the new query triple, clear the prompt and return to IDLE.  If an
await rejects, the statements after it never run, so the state keeps the
updates made before the rejection (in particular `status` stays LOADING). -/
def handlePromptSubmit (w : ChatWorld) (s : FormState) : SubmitOutcome :=
  if s.prompt = "" ∨ jsTrim s.prompt = "" then
    SubmitOutcome.mk s [] none
  else
    let s1 : FormState := { s with status := .LOADING }
    let msgs := messagesList s.gptQueries s.prompt
    match w.chat msgs with
    | .error e => SubmitOutcome.mk s1 [.lmCall msgs] (some e)
    | .ok reply =>
      let payload : GenerateSpeechInput := GenerateSpeechInput.mk defaultVoice reply "MP3"
      match w.tts payload with
      | .error e => SubmitOutcome.mk s1 [.lmCall msgs, .ttsCall payload] (some e)
      | .ok audioUrl =>
        SubmitOutcome.mk
          { s1 with
              gptQueries := s.gptQueries ++ [GPTQuery.mk s.prompt reply audioUrl],
              prompt := "",
              status := .IDLE }
          [.lmCall msgs, .ttsCall payload]
          none

/-- The conversation the session maintains, as an ordered message list: each
stored query contributes its user turn and its assistant turn. -/
def conversation (queries : List GPTQuery) : List ChatGPTMessage :=
  queries.flatMap fun q =>
    [ChatGPTMessage.mk .user q.question, ChatGPTMessage.mk .assistant q.gptResponse]

/-- The per-turn narration references, in turn order. -/
def narrations (queries : List GPTQuery) : List String :=
  queries.map GPTQuery.gptResponseAudioUrl

/-- One in-flight `handlePromptSubmit`: the values its closure captured when
it started (the prompt and the `gptQueries` array at click time). -/
structure PendingOp where
  prompt : String
  queries : List GPTQuery
deriving DecidableEq, Repr

/-- The browser-session state: the component state rendered in the DOM plus
the multiset of in-flight `handlePromptSubmit` invocations.  `pending` is a
list so that "at most one in flight" is a provable invariant rather than a
typing assumption. -/
structure SysState where
  form : FormState
  pending : List PendingOp
deriving DecidableEq, Repr

/-- Event-loop steps of the `GPTForm` session.  The input and the send
button carry `disabled={status === STATUS_TYPES.LOADING}`, and the DOM
delivers change/click events only to enabled controls, so `typeInput`,
`clickEmpty` and `clickSubmit` are guarded by `status = IDLE`.  A click with
a non-empty prompt runs the synchronous prefix of `handlePromptSubmit`
(guard check, `setStatus(LOADING)`) and registers the in-flight operation;
`resolveOk` runs the rest of the handler when both awaited calls succeed,
and `resolveErr` models a rejected await: everything after the rejection is
skipped, so only the pending registration is dropped.  The audio play/ended
handlers are not disabled during loading and may fire at any time. -/
inductive SysStep (w : ChatWorld) : SysState → SysState → Prop
  | typeInput (s : SysState) (text : String) :
      s.form.status = .IDLE →
      SysStep w s (SysState.mk { s.form with prompt := text } s.pending)
  | clickEmpty (s : SysState) :
      s.form.status = .IDLE →
      (s.form.prompt = "" ∨ jsTrim s.form.prompt = "") →
      SysStep w s s
  | clickSubmit (s : SysState) :
      s.form.status = .IDLE →
      ¬(s.form.prompt = "" ∨ jsTrim s.form.prompt = "") →
      SysStep w s
        (SysState.mk { s.form with status := .LOADING }
          (s.pending ++ [PendingOp.mk s.form.prompt s.form.gptQueries]))
  | resolveOk (s : SysState) (p : PendingOp) (rest : List PendingOp)
      (reply audioUrl : String) :
      s.pending = p :: rest →
      w.chat (messagesList p.queries p.prompt) = .ok reply →
      w.tts (GenerateSpeechInput.mk defaultVoice reply "MP3") = .ok audioUrl →
      SysStep w s
        (SysState.mk
          { s.form with
              gptQueries := p.queries ++ [GPTQuery.mk p.prompt reply audioUrl],
              prompt := "",
              status := .IDLE }
          rest)
  | resolveErr (s : SysState) (p : PendingOp) (rest : List PendingOp) :
      s.pending = p :: rest →
      SysStep w s (SysState.mk s.form rest)
  | clickAudioButton (s : SysState) (id : ℕ) :
      SysStep w s
        (SysState.mk
          { s.form with
              currentAudioId := if s.form.currentAudioId = some id then none else some id }
          s.pending)
  | audioEnded (s : SysState) :
      SysStep w s (SysState.mk { s.form with currentAudioId := none } s.pending)

/-- The freshly mounted component: empty prompt, IDLE, no queries, nothing
playing, nothing in flight. -/
def initState : SysState :=
  SysState.mk (FormState.mk "" .IDLE [] none) []

/-- States the session can reach from the initial render. -/
inductive Reachable (w : ChatWorld) : SysState → Prop
  | init : Reachable w initState
  | step {s s' : SysState} : Reachable w s → SysStep w s s' → Reachable w s'

/-- A chat world whose two services always succeed, used as concrete witness
data. -/
def wChat : ChatWorld where
  chat := fun _ => .ok "Jupiter is the largest planet in the Solar system"
  tts := fun _ => .ok "https://murf.example/narration.mp3"

/-- A concrete session state with one stored exchange and a new prompt typed
in. -/
def sChat : FormState :=
  FormState.mk "How big is it compared to earth?" .IDLE
    [GPTQuery.mk "Which is the largest planet in the solar system?"
      "Jupiter is the largest planet in the Solar system"
      "https://murf.example/narration0.mp3"]
    none

/-- A concrete session state whose prompt is whitespace-only. -/
def sChatBlank : FormState :=
  FormState.mk "   " .LOADING
    [GPTQuery.mk "q" "a" "https://murf.example/narration0.mp3"]
    (some 0)

end ChatgptMurf

namespace AiVideoGenerator

theorem pyBind_fst {α β : Type} (x : PyM α) (f : α → PyM β) :
    (PyM.bind x f).1 = x.1.bind fun a => (f a).1 := by
  obtain ⟨r, log⟩ := x
  cases r <;> rfl

theorem pyBind_fst_ok {α β : Type} {x : PyM α} {a : α} (f : α → PyM β)
    (h : x.1 = .ok a) : (PyM.bind x f).1 = (f a).1 := by
  obtain ⟨r, log⟩ := x
  cases r <;> simp_all [PyM.bind]

theorem pyBind_fst_error {α β : Type} {x : PyM α} {e : PyErr} (f : α → PyM β)
    (h : x.1 = .error e) : (PyM.bind x f).1 = .error e := by
  obtain ⟨r, log⟩ := x
  cases r <;> simp_all [PyM.bind]

theorem pyBind_snd_ok {α β : Type} {x : PyM α} {a : α} (f : α → PyM β)
    (h : x.1 = .ok a) : (PyM.bind x f).2 = x.2 ++ (f a).2 := by
  obtain ⟨r, log⟩ := x
  cases r <;> simp_all [PyM.bind]

theorem pyBind_snd_error {α β : Type} {x : PyM α} {e : PyErr} (f : α → PyM β)
    (h : x.1 = .error e) : (PyM.bind x f).2 = x.2 := by
  obtain ⟨r, log⟩ := x
  cases r <;> simp_all [PyM.bind]

theorem mem_pyBind_snd {α β : Type} {e : Event} (x : PyM α) (f : α → PyM β)
    (h : e ∈ (PyM.bind x f).2) : e ∈ x.2 ∨ ∃ a, e ∈ (f a).2 := by
  obtain ⟨r, log⟩ := x
  cases r with
  | error err => exact .inl h
  | ok a =>
      simp only [PyM.bind, List.mem_append] at h
      rcases h with h | h
      · exact .inl h
      · exact .inr ⟨a, h⟩

theorem exceptBind_assoc {ε α β γ : Type} (x : Except ε α)
    (f : α → Except ε β) (g : β → Except ε γ) :
    (x.bind f).bind g = x.bind fun a => (f a).bind g := by
  cases x <;> rfl

theorem exceptPure_bind {ε α β : Type} (a : α) (f : α → Except ε β) :
    (Except.ok a : Except ε α).bind f = f a := rfl

theorem exceptError_bind {ε α β : Type} (e : ε) (f : α → Except ε β) :
    (Except.error e : Except ε α).bind f = .error e := rfl

theorem build_data_list_fst (w : World) :
    ∀ items : List Json, (build_data_list w items).1 = listMediaOf w items
  | [] => rfl
  | item :: rest => by
    have ih := build_data_list_fst w rest
    simp only [build_data_list, listMediaOf, mediaOf, pyBind_fst, liftE, get_image,
      get_voiceover_url, PyM.pure, ih, exceptBind_assoc, exceptPure_bind]

theorem listMediaOf_ok_spec (w : World) :
    ∀ (items : List Json) (pairs : List Media),
      listMediaOf w items = .ok pairs →
      pairs.length = items.length ∧
      ∀ (i : ℕ) (hi : i < items.length) (hp : i < pairs.length),
        mediaOf w (items.get ⟨i, hi⟩) = .ok (pairs.get ⟨i, hp⟩)
  | [], pairs, h => by
      simp only [listMediaOf, Except.ok.injEq] at h
      subst h
      exact ⟨rfl, fun i hi hp => absurd hi (by simp)⟩
  | item :: rest, pairs, h => by
      cases hm : mediaOf w item with
      | error e => simp [listMediaOf, hm, Except.bind] at h
      | ok m =>
        cases hrest : listMediaOf w rest with
        | error e => simp [listMediaOf, hm, hrest, Except.bind] at h
        | ok tail =>
          have hp : pairs = m :: tail := by
            simp [listMediaOf, hm, hrest, Except.bind] at h
            exact h.symm
          subst hp
          obtain ⟨hlen, hidx⟩ := listMediaOf_ok_spec w rest tail hrest
          refine ⟨by simp [hlen], ?_⟩
          intro i hi hp2
          cases i with
          | zero => simpa using hm
          | succ n =>
              simp only [List.get_cons_succ]
              exact hidx n (by simpa using hi) (by simpa using hp2)

end AiVideoGenerator

namespace AiVideoGenerator

theorem get_script_eq (w : World) (prompt content : String)
    (hchat : w.chatReply (scriptMessages prompt) = .ok content) :
    get_script w prompt = (w.loads content, [.chatCall (scriptMessages prompt)]) := by
  simp [get_script, PyM.bind, liftE, hchat]

theorem build_data_list_cons_ok (w : World) (item : Json) (rest : List Json)
    (pairs : List Media) (log : List Event)
    (h : build_data_list w (item :: rest) = (.ok pairs, log)) :
    ∃ ip iu t v body au tail log2,
      item.getItem "imagePrompt" = .ok ip ∧ w.imageUrl ip = .ok iu ∧
      item.getItem "text" = .ok t ∧ item.getItem "voiceId" = .ok v ∧
      w.voiceResponse t v = .ok body ∧ body.getItem "audioFile" = .ok au ∧
      build_data_list w rest = (.ok tail, log2) ∧
      pairs = Media.mk iu au :: tail ∧
      log = .imageCall ip :: .voiceCall t v :: log2 := by
  cases h1 : item.getItem "imagePrompt" with
  | error e => simp [build_data_list, PyM.bind, liftE, h1, Prod.mk.injEq] at h
  | ok ip =>
    cases h2 : w.imageUrl ip with
    | error e =>
        simp [build_data_list, PyM.bind, liftE, get_image, h1, h2, Prod.mk.injEq] at h
    | ok iu =>
      cases h3 : item.getItem "text" with
      | error e =>
          simp [build_data_list, PyM.bind, liftE, get_image, h1, h2, h3, Prod.mk.injEq] at h
      | ok t =>
        cases h4 : item.getItem "voiceId" with
        | error e =>
            simp [build_data_list, PyM.bind, liftE, get_image, h1, h2, h3, h4,
              Prod.mk.injEq] at h
        | ok v =>
          cases h5 : w.voiceResponse t v with
          | error e =>
              simp [build_data_list, PyM.bind, liftE, get_image, get_voiceover_url,
                h1, h2, h3, h4, h5, Prod.mk.injEq] at h
          | ok body =>
            cases h6 : body.getItem "audioFile" with
            | error e =>
                simp [build_data_list, PyM.bind, liftE, get_image, get_voiceover_url,
                  h1, h2, h3, h4, h5, h6, Prod.mk.injEq] at h
            | ok au =>
              rcases h7 : build_data_list w rest with ⟨r7, log7⟩
              cases r7 with
              | error e =>
                  simp [build_data_list, PyM.bind, liftE, get_image, get_voiceover_url,
                    h1, h2, h3, h4, h5, h6, h7, Prod.mk.injEq] at h
              | ok tail =>
                  simp only [build_data_list, PyM.bind, liftE, get_image, get_voiceover_url,
                    PyM.pure, h1, h2, h3, h4, h5, h6, h7, Prod.mk.injEq, Except.ok.injEq,
                    List.singleton_append, List.cons_append, List.append_nil,
                    List.nil_append] at h
                  exact ⟨ip, iu, t, v, body, au, tail, log7,
                    rfl, h2, rfl, rfl, h5, h6, rfl, h.1.symm, h.2.symm⟩

theorem listMediaOf_error (w : World) :
    ∀ (pre : List Json) (bad : Json) (rest : List Json) (e : PyErr),
      (∀ it ∈ pre, ∃ m, mediaOf w it = .ok m) →
      mediaOf w bad = .error e →
      listMediaOf w (pre ++ bad :: rest) = .error e
  | [], bad, rest, e, _, hbad => by
      simp [listMediaOf, hbad, exceptError_bind]
  | a :: pre, bad, rest, e, hpre, hbad => by
      obtain ⟨m, hm⟩ := hpre a (by simp)
      have ih := listMediaOf_error w pre bad rest e
        (fun it hit => hpre it (by simp [hit])) hbad
      simp [List.cons_append, listMediaOf, hm, ih, exceptPure_bind, exceptError_bind]

theorem build_log_calls (w : World) :
    ∀ (items : List Json) (e : Event), e ∈ (build_data_list w items).2 →
      (∃ p, e = .imageCall p) ∨ ∃ t v, e = .voiceCall t v
  | [], e, he => by simp [build_data_list, PyM.pure] at he
  | item :: rest, e, he => by
      simp only [build_data_list] at he
      rcases mem_pyBind_snd _ _ he with h | ⟨ip, h⟩
      · simp [liftE] at h
      · rcases mem_pyBind_snd _ _ h with h | ⟨iu, h⟩
        · simp [get_image] at h
          exact .inl ⟨ip, h⟩
        · rcases mem_pyBind_snd _ _ h with h | ⟨t, h⟩
          · simp [liftE] at h
          · rcases mem_pyBind_snd _ _ h with h | ⟨v, h⟩
            · simp [liftE] at h
            · rcases mem_pyBind_snd _ _ h with h | ⟨au, h⟩
              · rcases mem_pyBind_snd _ _ h with h2 | ⟨body, h2⟩
                · simp at h2
                  exact .inr ⟨t, v, h2⟩
                · simp [liftE] at h2
              · rcases mem_pyBind_snd _ _ h with h2 | ⟨tail, h2⟩
                · exact build_log_calls w rest e h2
                · simp [PyM.pure] at h2

end AiVideoGenerator

namespace AiVideoGenerator

theorem build_clips_ok_spec (w : World) :
    ∀ (pairs : List Media) (c : ℕ) (clips : List Segment) (log : List Event),
      build_clips w pairs c = (.ok clips, log) →
      clips = (List.range pairs.length).map (fun j => clipAt w (c + j))
      ∧ log = clipsLog pairs c
  | [], c, clips, log, h => by
      simp only [build_clips, PyM.pure, Prod.mk.injEq, Except.ok.injEq] at h
      obtain ⟨h1, h2⟩ := h
      exact ⟨by simp [← h1], by simp [← h2, clipsLog]⟩
  | data :: rest, c, clips, log, h => by
      cases hf1 : w.fetch (.str data.imageUrl) with
      | error e =>
          simp [build_clips, download_file, PyM.bind, liftE, hf1, Prod.mk.injEq] at h
      | ok u1 =>
        cases hf2 : w.fetch data.audioUrl with
        | error e =>
            simp [build_clips, download_file, PyM.bind, liftE, hf1, hf2, Prod.mk.injEq] at h
        | ok u2 =>
          rcases hr : build_clips w rest (c + 1) with ⟨r, log2⟩
          cases r with
          | error e =>
              simp [build_clips, download_file, PyM.bind, liftE, hf1, hf2, hr,
                Prod.mk.injEq] at h
          | ok tail =>
              obtain ⟨ih1, ih2⟩ := build_clips_ok_spec w rest (c + 1) tail log2 hr
              simp only [build_clips, download_file, PyM.bind, liftE, PyM.pure,
                hf1, hf2, hr, Prod.mk.injEq, Except.ok.injEq, List.append_nil,
                List.nil_append, List.singleton_append, List.cons_append] at h
              obtain ⟨hc, hl⟩ := h
              constructor
              · rw [← hc, ih1, List.length_cons, List.range_succ_eq_map,
                  List.map_cons, List.map_map]
                refine congrArg₂ _ (by simp [clipAt]) ?_
                refine List.map_congr_left ?_
                intro j _
                simp only [Function.comp]
                exact congrArg (clipAt w) (by omega)
              · rw [← hl, ih2]
                simp [clipsLog]

theorem get_final_video_ok_spec (w : World) (pairs : List Media)
    (art : Artifact) (log : List Event)
    (h : get_final_video w pairs = (.ok art, log)) :
    art.path = "output_video.mp4" ∧ art.mediaType = "video/mp4"
    ∧ art.video = (List.range pairs.length).map (fun j => clipAt w j)
    ∧ log = clipsLog pairs 0 ++ [.writeVideo "output_video.mp4"] := by
  rcases hb : build_clips w pairs 0 with ⟨r, log0⟩
  cases r with
  | error e => simp [get_final_video, PyM.bind, hb, Prod.mk.injEq] at h
  | ok clips =>
      obtain ⟨h1, h2⟩ := build_clips_ok_spec w pairs 0 clips log0 hb
      simp only [get_final_video, PyM.bind, PyM.pure, hb, Prod.mk.injEq, Except.ok.injEq,
        List.append_nil] at h
      obtain ⟨ha, hl⟩ := h
      have h1' : clips = (List.range pairs.length).map (fun j => clipAt w j) := by
        rw [h1]
        exact List.map_congr_left fun j _ => congrArg (clipAt w) (by omega)
      refine ⟨?_, ?_, ?_, ?_⟩
      · rw [← ha]
      · rw [← ha]
      · rw [← ha, ← h1']
      · rw [← hl, h2]

theorem foldl_fsStep_no_delete :
    ∀ (log : List Event) (acc : List String),
      (∀ f, Event.deleteFile f ∉ log) →
      log.foldl fsStep acc = acc ++ log.filterMap writtenName
  | [], acc, _ => by simp
  | e :: rest, acc, hnd => by
      have hrest : ∀ f, Event.deleteFile f ∉ rest := fun f hf => hnd f (by simp [hf])
      cases e with
      | deleteFile f => exact absurd (by simp) (hnd f)
      | chatCall m =>
          simp [List.foldl_cons, fsStep, writtenName,
            foldl_fsStep_no_delete rest acc hrest]
      | imageCall p =>
          simp [List.foldl_cons, fsStep, writtenName,
            foldl_fsStep_no_delete rest acc hrest]
      | voiceCall t v =>
          simp [List.foldl_cons, fsStep, writtenName,
            foldl_fsStep_no_delete rest acc hrest]
      | download u f =>
          simp [List.foldl_cons, fsStep, writtenName,
            foldl_fsStep_no_delete rest (acc ++ [f]) hrest]
      | writeVideo f =>
          simp [List.foldl_cons, fsStep, writtenName,
            foldl_fsStep_no_delete rest (acc ++ [f]) hrest]

theorem clipsLog_no_delete :
    ∀ (pairs : List Media) (c : ℕ) (f : String),
      Event.deleteFile f ∉ clipsLog pairs c
  | [], _, _ => by simp [clipsLog]
  | data :: rest, c, f => by
      simp [clipsLog]
      exact clipsLog_no_delete rest (c + 1) f

theorem clipsLog_filterMap :
    ∀ (pairs : List Media) (c : ℕ),
      (clipsLog pairs c).filterMap writtenName = scratchNames c pairs.length
  | [], c => by simp [clipsLog, scratchNames]
  | data :: rest, c => by
      simp [clipsLog, scratchNames, writtenName, clipsLog_filterMap rest (c + 1)]

theorem filesAfter_get_final_video (w : World) (pairs : List Media)
    (art : Artifact) (log : List Event)
    (h : get_final_video w pairs = (.ok art, log)) :
    filesAfter log = scratchNames 0 pairs.length ++ ["output_video.mp4"] := by
  obtain ⟨_, _, _, hl⟩ := get_final_video_ok_spec w pairs art log h
  subst hl
  unfold filesAfter
  rw [List.foldl_append]
  rw [foldl_fsStep_no_delete (clipsLog pairs 0) [] (clipsLog_no_delete pairs 0)]
  simp [fsStep, clipsLog_filterMap]

theorem mem_scratchNames :
    ∀ (k c i : ℕ), i < k →
      imageName (c + i) ∈ scratchNames c k ∧ audioName (c + i) ∈ scratchNames c k
  | 0, _, i, h => absurd h (by omega)
  | k + 1, c, 0, _ => by simp [scratchNames]
  | k + 1, c, i + 1, h => by
      have h2 := mem_scratchNames k (c + 1) i (by omega)
      have e1 : c + (i + 1) = (c + 1) + i := by omega
      rw [e1]
      exact ⟨by simp [scratchNames, h2.1], by simp [scratchNames, h2.2]⟩

theorem voiceCalls_spec (w : World) :
    ∀ (items : List Json) (pairs : List Media) (log : List Event),
      build_data_list w items = (.ok pairs, log) →
      ∃ ts vs, lookups "text" items = .ok ts ∧ lookups "voiceId" items = .ok vs
        ∧ voiceCallsOf log = ts.zip vs
  | [], pairs, log, h => by
      simp only [build_data_list, PyM.pure, Prod.mk.injEq, Except.ok.injEq] at h
      exact ⟨[], [], rfl, rfl, by simp [← h.2, voiceCallsOf]⟩
  | item :: rest, pairs, log, h => by
      obtain ⟨ip, iu, t, v, body, au, tail, log2, e1, e2, e3, e4, e5, e6, e7, e8, e9⟩ :=
        build_data_list_cons_ok w item rest pairs log h
      obtain ⟨ts, vs, g1, g2, g3⟩ := voiceCalls_spec w rest tail log2 e7
      refine ⟨t :: ts, v :: vs, ?_, ?_, ?_⟩
      · simp [lookups, e3, g1, exceptPure_bind]
      · simp [lookups, e4, g2, exceptPure_bind]
      · subst e9
        simp only [voiceCallsOf] at g3
        simp [voiceCallsOf, List.filterMap_cons, g3]

theorem pyInt_eq_floor (q : ℚ) (h : 0 ≤ q) : pyInt q = ⌊q⌋ := by
  rw [Rat.floor_def, pyInt]
  exact Int.tdiv_eq_ediv (Rat.num_nonneg.mpr h) (Int.natCast_nonneg q.den)

end AiVideoGenerator

namespace AiVideoGenerator

theorem digitChar_inj_lt (a b : ℕ) (ha : a < 10) (hb : b < 10)
    (h : Nat.digitChar a = Nat.digitChar b) : a = b := by
  interval_cases a <;> interval_cases b <;> (revert h; decide)

theorem map_digitChar_inj :
    ∀ (l1 l2 : List ℕ), (∀ d ∈ l1, d < 10) → (∀ d ∈ l2, d < 10) →
      l1.map Nat.digitChar = l2.map Nat.digitChar → l1 = l2
  | [], [], _, _, _ => rfl
  | [], _ :: _, _, _, h => by simp at h
  | _ :: _, [], _, _, h => by simp at h
  | a :: l1, b :: l2, h1, h2, h => by
      simp only [List.map_cons, List.cons.injEq] at h
      have hd := digitChar_inj_lt a b (h1 a (by simp)) (h2 b (by simp)) h.1
      have tl := map_digitChar_inj l1 l2 (fun d hd2 => h1 d (by simp [hd2]))
        (fun d hd2 => h2 d (by simp [hd2])) h.2
      rw [hd, tl]

theorem pyStr_nonzero (n : ℕ) (hn : n ≠ 0) :
    pyStr n = String.mk (((Nat.digits 10 n).map Nat.digitChar).reverse) := if_neg hn

theorem pyStr_ne_zeroStr (n : ℕ) (hn : n ≠ 0) : pyStr n ≠ "0" := by
  intro h
  rw [pyStr_nonzero n hn] at h
  have hd : ((Nat.digits 10 n).map Nat.digitChar).reverse = ['0'] := congrArg String.data h
  have hmap : (Nat.digits 10 n).map Nat.digitChar = ['0'] := by
    have h2 := congrArg List.reverse hd
    simpa using h2
  rcases hdig : Nat.digits 10 n with _ | ⟨d, ds⟩
  · rw [hdig] at hmap
    simp at hmap
  · rw [hdig] at hmap
    simp only [List.map_cons, List.cons.injEq] at hmap
    obtain ⟨hchar, hds⟩ := hmap
    have hds0 : ds = [] := by simpa using hds
    have hd10 : d < 10 := Nat.digits_lt_base (by norm_num) (by rw [hdig]; simp)
    have hd0 : d = 0 := digitChar_inj_lt d 0 hd10 (by norm_num) (by rw [hchar]; rfl)
    have hroundtrip := Nat.ofDigits_digits 10 n
    rw [hdig, hds0, hd0] at hroundtrip
    simp [Nat.ofDigits] at hroundtrip
    exact hn hroundtrip.symm

theorem pyStr_inj (m n : ℕ) (h : pyStr m = pyStr n) : m = n := by
  by_cases hm : m = 0 <;> by_cases hn : n = 0
  · rw [hm, hn]
  · exfalso
    rw [hm] at h
    exact pyStr_ne_zeroStr n hn h.symm
  · exfalso
    rw [hn] at h
    exact pyStr_ne_zeroStr m hm h
  · rw [pyStr_nonzero m hm, pyStr_nonzero n hn] at h
    have hd : ((Nat.digits 10 m).map Nat.digitChar).reverse
        = ((Nat.digits 10 n).map Nat.digitChar).reverse := congrArg String.data h
    have hrev : (Nat.digits 10 m).map Nat.digitChar
        = (Nat.digits 10 n).map Nat.digitChar := List.reverse_injective hd
    have hdig : Nat.digits 10 m = Nat.digits 10 n :=
      map_digitChar_inj _ _ (fun d hdm => Nat.digits_lt_base (by norm_num) hdm)
        (fun d hdn => Nat.digits_lt_base (by norm_num) hdn) hrev
    have h1 := Nat.ofDigits_digits 10 m
    have h2 := Nat.ofDigits_digits 10 n
    rw [hdig] at h1
    exact h1.symm.trans h2

theorem imageName_inj (i j : ℕ) (h : imageName i = imageName j) : i = j := by
  apply pyStr_inj
  have hd := congrArg String.data h
  simp only [imageName, String.data_append, List.append_assoc] at hd
  have h1 := List.append_cancel_left hd
  have h2 := List.append_cancel_right h1
  exact congrArg String.mk h2

theorem audioName_inj (i j : ℕ) (h : audioName i = audioName j) : i = j := by
  apply pyStr_inj
  have hd := congrArg String.data h
  simp only [audioName, String.data_append, List.append_assoc] at hd
  have h1 := List.append_cancel_left hd
  have h2 := List.append_cancel_right h1
  exact congrArg String.mk h2

theorem imageName_ne_audioName (i j : ℕ) : imageName i ≠ audioName j := by
  intro h
  have hd := congrArg String.data h
  simp only [imageName, audioName, String.data_append, List.append_assoc,
    List.cons_append] at hd
  injection hd with h1 _
  exact absurd h1 (by decide)

end AiVideoGenerator

namespace ChatgptMurf

theorem conversation_append (qs : List GPTQuery) (q : GPTQuery) :
    conversation (qs ++ [q])
      = conversation qs
        ++ [ChatGPTMessage.mk .user q.question, ChatGPTMessage.mk .assistant q.gptResponse] := by
  simp [conversation, List.flatMap_append]

theorem handlePromptSubmit_ok (w : ChatWorld) (s : FormState) (reply audioUrl : String)
    (hne : ¬(s.prompt = "" ∨ jsTrim s.prompt = ""))
    (hchat : w.chat (messagesList s.gptQueries s.prompt) = .ok reply)
    (htts : w.tts (GenerateSpeechInput.mk defaultVoice reply "MP3") = .ok audioUrl) :
    handlePromptSubmit w s =
      SubmitOutcome.mk
        (FormState.mk "" .IDLE (s.gptQueries ++ [GPTQuery.mk s.prompt reply audioUrl])
          s.currentAudioId)
        [.lmCall (messagesList s.gptQueries s.prompt),
         .ttsCall (GenerateSpeechInput.mk defaultVoice reply "MP3")]
        none := by
  simp [handlePromptSubmit, hne, hchat, htts]

theorem reachable_inv (w : ChatWorld) (s : SysState) (h : Reachable w s) :
    (s.form.status = .IDLE → s.pending = []) ∧ s.pending.length ≤ 1 := by
  induction h with
  | init => exact ⟨fun _ => rfl, by simp [initState]⟩
  | @step s s' hr hstep ih =>
      cases hstep with
      | typeInput text hIdle =>
          exact ⟨fun _ => ih.1 hIdle, ih.2⟩
      | clickEmpty hIdle hguard => exact ih
      | clickSubmit hIdle hguard =>
          have hp := ih.1 hIdle
          refine ⟨fun hst => Status.noConfusion hst, ?_⟩
          simp [hp]
      | resolveOk p rest reply url hpend hchat htts =>
          have hlen := ih.2
          rw [hpend] at hlen
          have hrest : rest = [] := by
            cases rest with
            | nil => rfl
            | cons a l => simp at hlen
          subst hrest
          exact ⟨fun _ => rfl, by simp⟩
      | resolveErr p rest hpend =>
          have hlen := ih.2
          rw [hpend] at hlen
          have hrest : rest = [] := by
            cases rest with
            | nil => rfl
            | cons a l => simp at hlen
          subst hrest
          exact ⟨fun _ => rfl, by simp⟩
      | clickAudioButton id => exact ih
      | audioEnded => exact ih

end ChatgptMurf

namespace AiVideoGenerator

theorem get_range_map {α : Type} (f : ℕ → α) (n i : ℕ)
    (h : i < ((List.range n).map f).length) :
    ((List.range n).map f).get ⟨i, h⟩ = f i := by
  simp [List.get_eq_getElem]

theorem mem_clipsLog_audio :
    ∀ (pairs : List Media) (c i : ℕ) (hp : i < pairs.length),
      Event.download (pairs.get ⟨i, hp⟩).audioUrl (audioName (c + i)) ∈ clipsLog pairs c
  | data :: rest, c, 0, _ => by simp [clipsLog]
  | data :: rest, c, i + 1, hp => by
      have hrec := mem_clipsLog_audio rest (c + 1) i (by simpa using hp)
      have e1 : c + (i + 1) = (c + 1) + i := by omega
      simp only [List.get_cons_succ, e1]
      simp [clipsLog]
      right; right
      exact hrec

/-- C1: for every valid script of length `k` that the assembly loop of
`get_ai_video` processes successfully, `build_data_list` produces exactly
`k` media pairs, the `i`-th pair being exactly the one derived (image call
on its `imagePrompt`, voice call on its `text`/`voiceId`) from the `i`-th
script directive, and the composed video returned by `get_final_video`
contains exactly `k` concatenated segments.  Because a failing sub-step
makes the whole computation return the raised exception instead of an `ok`
value (see C5), a successful run can never silently truncate: every success
has exactly `k` pairs and `k` segments. -/
theorem c1_assembly_produces_k_ordered_pairs_and_segments
    (w : World) (items : List Json) (pairs : List Media) (log : List Event)
    (h : build_data_list w items = (.ok pairs, log)) :
    pairs.length = items.length
    ∧ (∀ (i : ℕ) (hi : i < items.length) (hp : i < pairs.length),
        mediaOf w (items.get ⟨i, hi⟩) = .ok (pairs.get ⟨i, hp⟩))
    ∧ (∀ (art : Artifact) (log2 : List Event),
        get_final_video w pairs = (.ok art, log2) → art.video.length = items.length) := by
  have h1 : listMediaOf w items = .ok pairs := by
    have h2 := build_data_list_fst w items
    rw [h] at h2
    exact h2.symm
  obtain ⟨hlen, hidx⟩ := listMediaOf_ok_spec w items pairs h1
  refine ⟨hlen, hidx, ?_⟩
  intro art log2 hf
  obtain ⟨_, _, hv, _⟩ := get_final_video_ok_spec w pairs art log2 hf
  rw [hv]
  simp [hlen]

/-- C1 witness: the two-item sample script yields exactly two media pairs. -/
theorem c1_witness : samplePairs.length = sampleItems.length :=
  (c1_assembly_produces_k_ordered_pairs_and_segments wOk sampleItems samplePairs
    sampleAssemblyLog rfl).1

/-- C2: every segment `get_final_video` builds for pair `i` has displayed
duration `⌊audio duration⌋ + 1` (one second of fixed padding over the
floored audio length), carries the audio track downloaded for that pair
(the file `audio_i.wav`, downloaded from that pair's `audioUrl`), and the
total duration of the concatenated video is the sum of `⌊audio_i⌋ + 1`. -/
theorem c2_duration_is_floor_audio_plus_one
    (w : World) (pairs : List Media) (art : Artifact) (log : List Event)
    (hd : ∀ p : String, 0 ≤ w.audioDuration p)
    (h : get_final_video w pairs = (.ok art, log)) :
    art.video.length = pairs.length
    ∧ (∀ (i : ℕ) (hi : i < art.video.length),
        (art.video.get ⟨i, hi⟩).duration = ⌊w.audioDuration (audioName i)⌋ + 1
        ∧ (art.video.get ⟨i, hi⟩).audioPath = audioName i)
    ∧ (∀ (i : ℕ) (hp : i < pairs.length),
        Event.download (pairs.get ⟨i, hp⟩).audioUrl (audioName i) ∈ log)
    ∧ videoDuration art.video
        = ((List.range pairs.length).map fun i => ⌊w.audioDuration (audioName i)⌋ + 1).sum := by
  obtain ⟨apath, amt, avideo⟩ := art
  obtain ⟨hp1, hp2, hv, hl⟩ := get_final_video_ok_spec w pairs _ log h
  simp only at hv
  subst hv
  refine ⟨by simp, ?_, ?_, ?_⟩
  · intro i hi
    rw [get_range_map]
    exact ⟨by simp [clipAt, pyInt_eq_floor _ (hd _)], rfl⟩
  · intro i hp
    rw [hl]
    refine List.mem_append.mpr (.inl ?_)
    have := mem_clipsLog_audio pairs 0 i hp
    simpa using this
  · simp only [videoDuration, List.map_map]
    congr 1
    refine List.map_congr_left ?_
    intro j _
    simp [Function.comp, clipAt, pyInt_eq_floor _ (hd _)]

/-- C2 witness: the one-pair list with a 3.5-second narration yields a
one-segment artifact. -/
theorem c2_witness : artA.video.length = mediaListA.length :=
  (c2_duration_is_floor_audio_plus_one wOk mediaListA artA finalLogA
    (fun _ => show (0 : ℚ) ≤ durOk by decide) rfl).1

end AiVideoGenerator

namespace AiVideoGenerator

/-- C4 counterexample: the claim says the planner verifies voice consistency
and normalizes differing voiceIds to the first valid one before assembly, so
that the assembler is never invoked with two directives bearing different
voiceIds.  The code contains no such check: on the two-item script
`mixedVoiceItems`, whose items carry `en-UK-gabriel` and `en-US-caleb`, the
assembly loop invokes the voice-synthesis client once with each of the two
distinct voiceIds, unchanged. -/
theorem c4_counterexample :
    (voiceCallsOf (build_data_list wOk mixedVoiceItems).2).map Prod.snd
      = [Json.str "en-UK-gabriel", Json.str "en-US-caleb"]
    ∧ Json.str "en-UK-gabriel" ≠ Json.str "en-US-caleb" := by
  refine ⟨rfl, ?_⟩
  intro h
  injection h with h2
  exact absurd h2 (by decide)

/-- C4 (amended): no voice verification or normalization happens anywhere in
the pipeline; on any successful assembly, the voiceIds sent to the
voice-synthesis client are exactly the `voiceId` fields of the script
directives, in script order and unchanged, whether or not they agree. -/
theorem c4_voiceIds_forwarded_unchanged
    (w : World) (items : List Json) (pairs : List Media) (log : List Event)
    (h : build_data_list w items = (.ok pairs, log)) :
    ∃ ts vs, lookups "text" items = .ok ts ∧ lookups "voiceId" items = .ok vs
      ∧ voiceCallsOf log = ts.zip vs :=
  voiceCalls_spec w items pairs log h

/-- C4 witness: the mixed-voice script is processed successfully and the
forwarded voiceIds are its own two distinct voiceIds. -/
theorem c4_witness :
    ∃ ts vs, lookups "text" mixedVoiceItems = .ok ts
      ∧ lookups "voiceId" mixedVoiceItems = .ok vs
      ∧ voiceCallsOf mixedLog = ts.zip vs :=
  c4_voiceIds_forwarded_unchanged wOk mixedVoiceItems samplePairs mixedLog rfl

end AiVideoGenerator

namespace AiVideoGenerator

/-- C5 (amended): if every directive before index `i` assembles successfully
and the image- or voice-synthesis work for the directive at index `i` raises
an error `e`, then the whole `get_ai_video` invocation fails with exactly
that error `e` — the sub-call's own exception, propagated unchanged and
without any index annotation — no output video is ever written, and the
pipeline never returns a truncated success. -/
theorem c5_subcall_failure_is_fatal_no_artifact
    (w : World) (prompt content : String) (script sarr : Json)
    (pre : List Json) (bad : Json) (rest : List Json) (e : PyErr)
    (hchat : w.chatReply (scriptMessages prompt) = .ok content)
    (hloads : w.loads content = .ok script)
    (hkey : script.getItem "script" = .ok sarr)
    (harr : sarr.asArr = .ok (pre ++ bad :: rest))
    (hpre : ∀ it ∈ pre, ∃ m, mediaOf w it = .ok m)
    (hbad : mediaOf w bad = .error e) :
    (get_ai_video w prompt).1 = .error e
    ∧ ∀ f, Event.writeVideo f ∉ (get_ai_video w prompt).2 := by
  have hscript : get_script w prompt = (.ok script, [.chatCall (scriptMessages prompt)]) := by
    rw [get_script_eq w prompt content hchat, hloads]
  have hbuild : (build_data_list w (pre ++ bad :: rest)).1 = .error e := by
    rw [build_data_list_fst]
    exact listMediaOf_error w pre bad rest e hpre hbad
  rcases hb : build_data_list w (pre ++ bad :: rest) with ⟨rb, logB⟩
  have hrb : rb = .error e := by
    rw [hb] at hbuild
    exact hbuild
  subst hrb
  constructor
  · simp [get_ai_video, hscript, PyM.bind, liftE, hkey, harr, hb]
  · intro f hf
    simp only [get_ai_video, hscript, PyM.bind, liftE, hkey, harr, hb, List.append_nil,
      List.nil_append, List.cons_append, List.singleton_append, List.mem_append,
      List.mem_cons, List.mem_singleton, List.not_mem_nil, or_false, false_or] at hf
    rcases hf with hf | hf
    · exact Event.noConfusion hf
    · have hcalls := build_log_calls w (pre ++ bad :: rest) (Event.writeVideo f)
        (by rw [hb]; exact hf)
      rcases hcalls with ⟨p, hp⟩ | ⟨t, v, hv⟩
      · exact Event.noConfusion hp
      · exact Event.noConfusion hv

/-- C5 witness: with the image call failing on directive 1 of the three-item
script, the pipeline returns that error and writes no video file. -/
theorem c5_witness :
    (get_ai_video wFailAt1 "penguins").1 = .error (.requestError "dalle failure") :=
  (c5_subcall_failure_is_fatal_no_artifact wFailAt1 "penguins" "raw json reply"
    (.obj [("script", .arr threeItems)]) (.arr threeItems)
    [item5a] item5b [item5c] (.requestError "dalle failure")
    rfl rfl rfl rfl
    (by
      intro it hit
      rw [List.mem_singleton] at hit
      subst hit
      exact ⟨Media.mk "https://images.example/img.png" (.str "https://audio.example/a.wav"),
        rfl⟩)
    rfl).1

/-- C5 counterexample: the claim also says the fatal error identifies the
failing index `i`.  It does not: the code propagates the sub-call's raw
exception with no index information.  Concretely, `wFailAt1` fails at
directive index 1 (its image call succeeds on `p0`, fails on `p1`) and
`wFailAt2` fails at directive index 2 (it succeeds on `p1`, fails on `p2`),
yet both pipeline invocations return the very same error value, so the
returned error cannot identify which index failed. -/
theorem c5_counterexample :
    (get_ai_video wFailAt1 "penguins").1 = .error (.requestError "dalle failure")
    ∧ (get_ai_video wFailAt2 "penguins").1 = .error (.requestError "dalle failure")
    ∧ mediaOf wFailAt1 item5a
        = .ok (Media.mk "https://images.example/img.png" (.str "https://audio.example/a.wav"))
    ∧ mediaOf wFailAt1 item5b = .error (.requestError "dalle failure")
    ∧ mediaOf wFailAt2 item5b
        = .ok (Media.mk "https://images.example/img.png" (.str "https://audio.example/a.wav"))
    ∧ mediaOf wFailAt2 item5c = .error (.requestError "dalle failure")
    ∧ (get_ai_video wFailAt1 "penguins").1 = (get_ai_video wFailAt2 "penguins").1 :=
  ⟨rfl, rfl, rfl, rfl, rfl, rfl, rfl⟩

end AiVideoGenerator

namespace AiVideoGenerator

/-- C6 (amended): `get_script` issues exactly one chat-completion call and
passes the reply through `json.loads`; a malformed (unparseable) reply is a
fatal error surfaced to the caller unchanged — never retried and never
accepted — while any successfully parsed value is handed downstream as is
(`get_script` itself performs no check that the value contains the expected
script array; a parsed reply lacking it fails only later, in `get_ai_video`
at the `script["script"]` lookup, which is also fatal). -/
theorem c6_get_script_parses_but_does_not_validate_shape
    (w : World) (prompt content : String)
    (hchat : w.chatReply (scriptMessages prompt) = .ok content) :
    (∀ e, w.loads content = .error e →
        get_script w prompt = (.error e, [.chatCall (scriptMessages prompt)]))
    ∧ (∀ j, w.loads content = .ok j →
        get_script w prompt = (.ok j, [.chatCall (scriptMessages prompt)])) := by
  constructor
  · intro e he
    rw [get_script_eq w prompt content hchat, he]
  · intro j hj
    rw [get_script_eq w prompt content hchat, hj]

/-- C6 witness: with a model reply that is not valid JSON, `get_script`
fails with the parse error after exactly one chat call. -/
theorem c6_witness :
    get_script wMalformed "penguins"
      = (.error (.jsonDecodeError "Expecting value: line 1 column 1"),
         [.chatCall (scriptMessages "penguins")]) :=
  (c6_get_script_parses_but_does_not_validate_shape wMalformed "penguins"
    "not json at all" rfl).1 _ rfl

/-- C6 counterexample: the claim says `get_script` validates that the reply
contains the expected script array before handing it downstream.  It does
not: on a world whose model returns the valid JSON object with only a
`foo` key, `get_script` returns that object successfully (no validation
error), and the missing-array failure surfaces only later as the `KeyError`
raised by `script["script"]` inside `get_ai_video`. -/
theorem c6_counterexample :
    get_script wNoScriptKey "penguins"
      = (.ok (.obj [("foo", .num 1)]), [.chatCall (scriptMessages "penguins")])
    ∧ (get_ai_video wNoScriptKey "penguins").1 = .error (.keyError "script") :=
  ⟨rfl, rfl⟩

/-- C7 (amended): scratch files are never cleaned up.  After any successful
`get_final_video` invocation, every per-item scratch file (`image_i.png`
and `audio_i.wav` for each processed pair) is still present in the local
filesystem at the time the function returns — the code contains no deletion
of any file. -/
theorem c7_scratch_files_survive_composition
    (w : World) (pairs : List Media) (art : Artifact) (log : List Event)
    (h : get_final_video w pairs = (.ok art, log)) :
    ∀ i : ℕ, i < pairs.length →
      imageName i ∈ filesAfter log ∧ audioName i ∈ filesAfter log := by
  intro i hi
  rw [filesAfter_get_final_video w pairs art log h]
  have hm := mem_scratchNames pairs.length 0 i hi
  rw [Nat.zero_add] at hm
  exact ⟨List.mem_append.mpr (.inl hm.1), List.mem_append.mpr (.inl hm.2)⟩

/-- C7 witness: the one-pair invocation leaves both of its scratch files on
disk after returning successfully. -/
theorem c7_witness :
    imageName 0 ∈ filesAfter finalLogA ∧ audioName 0 ∈ filesAfter finalLogA :=
  c7_scratch_files_survive_composition wOk mediaListA artA finalLogA rfl 0 (by decide)

/-- C7 counterexample: the claim says all scratch files are cleaned up after
composition, so that intermediate scratch state never survives the
invocation.  On a concrete successful invocation, both scratch files are
still present after the function returns its artifact. -/
theorem c7_counterexample :
    (get_final_video wOk mediaListA).1 = .ok artA
    ∧ "image_0.png" ∈ filesAfter (get_final_video wOk mediaListA).2
    ∧ "audio_0.wav" ∈ filesAfter (get_final_video wOk mediaListA).2 :=
  ⟨rfl, by decide, by decide⟩

/-- C9 (amended): within one invocation the scratch names never collide —
two distinct indices get distinct image names and distinct audio names, and
an image name never equals an audio name — but the names depend only on the
item index, not on the invocation: any two successful invocations of equal
length write exactly the same set of filenames (including the shared output
name `output_video.mp4`), so distinct invocations do not have disjoint
scratch namespaces. -/
theorem c9_names_unique_within_invocation_but_shared_across
    : (∀ i j : ℕ, i ≠ j → imageName i ≠ imageName j)
    ∧ (∀ i j : ℕ, i ≠ j → audioName i ≠ audioName j)
    ∧ (∀ i j : ℕ, imageName i ≠ audioName j)
    ∧ ∀ (w₁ w₂ : World) (l₁ l₂ : List Media) (a₁ a₂ : Artifact) (g₁ g₂ : List Event),
        get_final_video w₁ l₁ = (.ok a₁, g₁) → get_final_video w₂ l₂ = (.ok a₂, g₂) →
        l₁.length = l₂.length → filesAfter g₁ = filesAfter g₂ := by
  refine ⟨?_, ?_, ?_, ?_⟩
  · intro i j hij h
    exact hij (imageName_inj i j h)
  · intro i j hij h
    exact hij (audioName_inj i j h)
  · exact imageName_ne_audioName
  · intro w₁ w₂ l₁ l₂ a₁ a₂ g₁ g₂ h₁ h₂ hlen
    rw [filesAfter_get_final_video w₁ l₁ a₁ g₁ h₁,
      filesAfter_get_final_video w₂ l₂ a₂ g₂ h₂, hlen]

/-- C9 witness: indices 1 and 0 receive distinct image scratch names. -/
theorem c9_witness : imageName 1 ≠ imageName 0 :=
  c9_names_unique_within_invocation_but_shared_across.1 1 0 (by decide)

/-- C9 counterexample: the claim says distinct pipeline invocations use
disjoint scratch storage namespaces, sharing no scratch or output file.
Two invocations over different remote assets both write `image_0.png`,
`audio_0.wav` and `output_video.mp4`. -/
theorem c9_counterexample :
    mediaListA.map Media.imageUrl = ["https://a.example/img0.png"]
    ∧ mediaListB.map Media.imageUrl = ["https://b.example/img0.png"]
    ∧ ("https://a.example/img0.png" : String) ≠ "https://b.example/img0.png"
    ∧ "image_0.png" ∈ filesAfter (get_final_video wOk mediaListA).2
    ∧ "image_0.png" ∈ filesAfter (get_final_video wOk mediaListB).2
    ∧ "output_video.mp4" ∈ filesAfter (get_final_video wOk mediaListA).2
    ∧ "output_video.mp4" ∈ filesAfter (get_final_video wOk mediaListB).2 :=
  ⟨rfl, rfl, by decide, by decide, by decide, by decide, by decide⟩

end AiVideoGenerator

namespace ChatgptMurf

/-- C3: for every well-formed conversation (any stored query list), one
successful `handlePromptSubmit` with a non-blank prompt appends exactly one
new query record, which extends the conversation by exactly one user turn
and one assistant turn (message count `n + 2`), records exactly one new
narration audio reference, and leaves every prior turn unchanged (the new
conversation is the old one plus the two new messages appended at the
end). -/
theorem c3_submit_extends_conversation_by_one_exchange
    (w : ChatWorld) (s : FormState) (reply audioUrl : String)
    (hne : ¬(s.prompt = "" ∨ jsTrim s.prompt = ""))
    (hchat : w.chat (messagesList s.gptQueries s.prompt) = .ok reply)
    (htts : w.tts (GenerateSpeechInput.mk defaultVoice reply "MP3") = .ok audioUrl) :
    (handlePromptSubmit w s).err = none
    ∧ (handlePromptSubmit w s).state.gptQueries
        = s.gptQueries ++ [GPTQuery.mk s.prompt reply audioUrl]
    ∧ conversation (handlePromptSubmit w s).state.gptQueries
        = conversation s.gptQueries
          ++ [ChatGPTMessage.mk .user s.prompt, ChatGPTMessage.mk .assistant reply]
    ∧ (conversation (handlePromptSubmit w s).state.gptQueries).length
        = (conversation s.gptQueries).length + 2
    ∧ narrations (handlePromptSubmit w s).state.gptQueries
        = narrations s.gptQueries ++ [audioUrl] := by
  rw [handlePromptSubmit_ok w s reply audioUrl hne hchat htts]
  refine ⟨rfl, rfl, ?_, ?_, ?_⟩
  · exact conversation_append s.gptQueries _
  · rw [conversation_append]
    simp
  · simp [narrations]

/-- C3 witness: submitting the follow-up question over a one-exchange
history yields a conversation two messages longer. -/
theorem c3_witness :
    (conversation (handlePromptSubmit wChat sChat).state.gptQueries).length
      = (conversation sChat.gptQueries).length + 2 :=
  (c3_submit_extends_conversation_by_one_exchange wChat sChat
    "Jupiter is the largest planet in the Solar system"
    "https://murf.example/narration.mp3"
    (by decide) rfl rfl).2.2.2.1

/-- C8: in the event-loop model of the form (where the DOM delivers input
and click events only to controls that are not `disabled`, and both the
input and the send button are disabled exactly while `status` is LOADING),
every reachable session state has at most one `handlePromptSubmit` in
flight; while one is in flight the form is disabled (status LOADING), and
no step taken from such a state can start a second one — a second
submission is rejected (the click is not delivered), never interleaved. -/
theorem c8_at_most_one_submit_in_flight
    (w : ChatWorld) (s : SysState) (h : Reachable w s) :
    s.pending.length ≤ 1
    ∧ (s.pending ≠ [] → s.form.status = .LOADING)
    ∧ ∀ s' : SysState, SysStep w s s' → s'.pending.length ≤ 1 := by
  obtain ⟨h1, h2⟩ := reachable_inv w s h
  refine ⟨h2, ?_, ?_⟩
  · intro hne
    cases hst : s.form.status with
    | IDLE => exact absurd (h1 hst) hne
    | LOADING => rfl
  · intro s' hstep
    exact (reachable_inv w s' (Reachable.step h hstep)).2

/-- C8 witness: the initial state is reachable and satisfies the bound. -/
theorem c8_witness : initState.pending.length ≤ 1 :=
  (c8_at_most_one_submit_in_flight wChat initState Reachable.init).1

/-- C10: calling `handlePromptSubmit` with an empty or whitespace-only
prompt returns immediately: no language-model call, no voice-synthesis
call, no error, and the entire component state (history, status, prompt,
playing audio) is returned unchanged. -/
theorem c10_blank_prompt_is_a_noop
    (w : ChatWorld) (s : FormState)
    (h : s.prompt = "" ∨ jsTrim s.prompt = "") :
    handlePromptSubmit w s = SubmitOutcome.mk s [] none := by
  unfold handlePromptSubmit
  rw [if_pos h]

/-- C10 witness: a whitespace-only prompt leaves the session untouched and
issues no calls. -/
theorem c10_witness :
    handlePromptSubmit wChat sChatBlank = SubmitOutcome.mk sChatBlank [] none :=
  c10_blank_prompt_is_a_noop wChat sChatBlank (by decide)

end ChatgptMurf
